import Mathlib

/-!
Verification of the Egyptian National ID Service core (config/database/security/national_id).

Shallow embedding conventions:
- Python `dict` state is modelled as a function into `Option`.
- `time.monotonic()` values and SQLite timestamps are modelled as abstract `Int` instants,
  passed explicitly as a `now` argument to each operation that reads a clock.
- Python `int` is modelled as `Int`.
- Raised exceptions are modelled as explicit result constructors
  (`CheckResult.rejected` for `RateLimitExceededError`, `GateResult.httpError` for
  `HTTPException`, `Except.error` for `NationalIDValidationError`).
-/

namespace EgyptianNationalIDService

/-- Embeds `RateLimitState` from `app/security.py`: a per-key fixed-window counter
with `start_time: float` (modelled as `Int`) and `count: int`. -/
structure RateLimitState where
  start_time : Int
  count : Int
  deriving DecidableEq, Repr

/-- Result of `RateLimiter.check`: the Python method returns `None` on success and raises
`RateLimitExceededError` on rejection; we reify the two outcomes. -/
inductive CheckResult where
  | allowed
  | rejected
  deriving DecidableEq, Repr

/-- Embeds the `RateLimiter` object from `app/security.py`: `window_seconds` plus the
`_state: Dict[str, RateLimitState]` mapping, modelled as a function into `Option`. -/
structure RateLimiter where
  window_seconds : Int
  state : String → Option RateLimitState

/-- Writing `self._state[key] = st` on the Python dict. -/
def RateLimiter.setState (rl : RateLimiter) (key : String) (st : RateLimitState) :
    RateLimiter :=
  { rl with state := fun k => if k = key then some st else rl.state k }

/-- Embeds `RateLimiter.check(key, limit)` from `app/security.py`, with the
`time.monotonic()` reading passed in as `now`:

    state = self._state.get(key)
    if state is None or now - state.start_time >= self.window_seconds:
        self._state[key] = RateLimitState(start_time=now, count=1)
        return
    if state.count >= limit:
        raise RateLimitExceededError()
    state.count += 1
-/
def RateLimiter.check (rl : RateLimiter) (now : Int) (key : String) (limit : Int) :
    CheckResult × RateLimiter :=
  match rl.state key with
  | none => (.allowed, rl.setState key ⟨now, 1⟩)
  | some st =>
    if rl.window_seconds ≤ now - st.start_time then
      (.allowed, rl.setState key ⟨now, 1⟩)
    else if limit ≤ st.count then
      (.rejected, rl)
    else
      (.allowed, rl.setState key ⟨st.start_time, st.count + 1⟩)

/-- Running `RateLimiter.check` for one key over a list of request instants,
collecting each request's outcome and threading the limiter state. -/
def runChecks (key : String) (limit : Int) :
    RateLimiter → List Int → List CheckResult × RateLimiter
  | rl, [] => ([], rl)
  | rl, t :: ts =>
    let p := rl.check t key limit
    let q := runChecks key limit p.2 ts
    (p.1 :: q.1, q.2)

theorem setState_state_self (rl : RateLimiter) (key : String) (st : RateLimitState) :
    (rl.setState key st).state key = some st := by
  simp [RateLimiter.setState]

theorem setState_window (rl : RateLimiter) (key : String) (st : RateLimitState) :
    (rl.setState key st).window_seconds = rl.window_seconds := rfl

/-- A fresh limiter with window 60, as constructed by `RateLimiter()` in `app/security.py`. -/
def freshLimiter : RateLimiter := ⟨60, fun _ => none⟩

/-- Claim C6: a `check` call arriving exactly at the window boundary
(`now - state.start_time = window_seconds`) starts a fresh window with count 1 and is
Allowed, for any prior count `c` — in particular even when the prior window's count had
reached the limit. -/
theorem check_boundary_starts_fresh_window (rl : RateLimiter) (key : String)
    (now w0 c limit : Int) (hstate : rl.state key = some ⟨w0, c⟩)
    (hboundary : now - w0 = rl.window_seconds) :
    rl.check now key limit = (.allowed, rl.setState key ⟨now, 1⟩) := by
  simp [RateLimiter.check, hstate, hboundary]

/-- Witness for C6: prior window exhausted (count 5 = limit 5), request at
`start_time + window_seconds` is Allowed and the window restarts at count 1. -/
theorem check_boundary_starts_fresh_window_witness :
    ((freshLimiter.setState "k" ⟨0, 5⟩).check 60 "k" 5).1 = .allowed ∧
      ((freshLimiter.setState "k" ⟨0, 5⟩).check 60 "k" 5).2.state "k" = some ⟨60, 1⟩ := by
  have h := check_boundary_starts_fresh_window (freshLimiter.setState "k" ⟨0, 5⟩) "k"
    60 0 5 5 (by simp [freshLimiter, RateLimiter.setState]) rfl
  rw [h]
  exact ⟨rfl, by simp [RateLimiter.setState]⟩

/-- Claim C7: when `check` rejects a request, the limiter state is left unchanged
(the `raise` happens before any mutation of the per-key state). -/
theorem check_rejected_state_unchanged (rl : RateLimiter) (now : Int) (key : String)
    (limit : Int) (hrej : (rl.check now key limit).1 = .rejected) :
    (rl.check now key limit).2 = rl := by
  unfold RateLimiter.check at hrej ⊢
  match h : rl.state key with
  | none => simp [h] at hrej
  | some st =>
    simp only [h] at hrej ⊢
    by_cases h1 : rl.window_seconds ≤ now - st.start_time
    · simp [h1] at hrej
    · by_cases h2 : limit ≤ st.count
      · simp [h1, h2]
      · simp [h1, h2] at hrej

/-- Witness for C7: a rejected request (count 5 ≥ limit 5, inside the window) leaves
the limiter unchanged. -/
theorem check_rejected_state_unchanged_witness :
    ((freshLimiter.setState "k" ⟨0, 5⟩).check 10 "k" 5).2 =
      freshLimiter.setState "k" ⟨0, 5⟩ :=
  check_rejected_state_unchanged (freshLimiter.setState "k" ⟨0, 5⟩) 10 "k" 5
    (by simp [RateLimiter.check, RateLimiter.setState, freshLimiter])

/-- Claim C10: with a non-positive limit and no existing window state for the key,
the first request is Allowed and creates a window with count 1; any later request
strictly inside that window is Rejected (with state unchanged). -/
theorem check_nonpositive_limit_first_allowed (rl : RateLimiter) (now : Int)
    (key : String) (limit : Int) (hlim : limit ≤ 0) (hfresh : rl.state key = none) :
    (rl.check now key limit).1 = .allowed ∧
      (rl.check now key limit).2 = rl.setState key ⟨now, 1⟩ ∧
      (∀ t : Int, t - now < rl.window_seconds →
        (rl.setState key ⟨now, 1⟩).check t key limit =
          (.rejected, rl.setState key ⟨now, 1⟩)) := by
  refine ⟨by simp [RateLimiter.check, hfresh], by simp [RateLimiter.check, hfresh], ?_⟩
  intro t ht
  have hreset : ¬ ((rl.setState key ⟨now, 1⟩).window_seconds ≤ t - now) := by
    rw [setState_window]; omega
  have hcnt : limit ≤ (1 : Int) := by omega
  simp [RateLimiter.check, setState_state_self, hreset, hcnt]

/-- Witness for C10: limit 0, fresh key — first request at t = 0 Allowed with count 1,
request at t = 1 (inside the 60s window) Rejected. -/
theorem check_nonpositive_limit_first_allowed_witness :
    (freshLimiter.check 0 "k" 0).1 = .allowed ∧
      (freshLimiter.check 0 "k" 0).2 = freshLimiter.setState "k" ⟨0, 1⟩ ∧
      (∀ t : Int, t - 0 < freshLimiter.window_seconds →
        (freshLimiter.setState "k" ⟨0, 1⟩).check t "k" 0 =
          (.rejected, freshLimiter.setState "k" ⟨0, 1⟩)) :=
  check_nonpositive_limit_first_allowed freshLimiter 0 "k" 0 (by decide) rfl

theorem runChecks_nil (key : String) (limit : Int) (rl : RateLimiter) :
    runChecks key limit rl [] = ([], rl) := rfl

theorem runChecks_cons (key : String) (limit : Int) (rl : RateLimiter) (t : Int)
    (ts : List Int) :
    runChecks key limit rl (t :: ts) =
      ((rl.check t key limit).1 ::
          (runChecks key limit (rl.check t key limit).2 ts).1,
        (runChecks key limit (rl.check t key limit).2 ts).2) := rfl

/-- Characterization of a run of `check` calls that all fall strictly inside the current
window of `key` (so no reset fires): with current count `c`, the first
`min (limit - c).toNat ts.length` requests are Allowed and the rest Rejected, the
window start is unchanged and the count grows by the number of Allowed requests. -/
theorem runChecks_in_window (key : String) (limit : Int) (rl : RateLimiter)
    (w0 c : Int) (ts : List Int)
    (hstate : rl.state key = some ⟨w0, c⟩)
    (hin : ∀ t ∈ ts, t - w0 < rl.window_seconds) :
    (runChecks key limit rl ts).1 =
        List.replicate (min (limit - c).toNat ts.length) .allowed ++
          List.replicate (ts.length - min (limit - c).toNat ts.length) .rejected ∧
      (runChecks key limit rl ts).2.state key =
        some ⟨w0, c + ((min (limit - c).toNat ts.length : Nat) : Int)⟩ ∧
      (runChecks key limit rl ts).2.window_seconds = rl.window_seconds := by
  induction ts generalizing rl c with
  | nil => simpa [runChecks_nil] using hstate
  | cons t ts ih =>
    have hhead : t - w0 < rl.window_seconds := hin t (List.mem_cons_self _ _)
    have htail : ∀ t' ∈ ts, t' - w0 < rl.window_seconds :=
      fun t' h => hin t' (List.mem_cons_of_mem _ h)
    have hnr : ¬ (rl.window_seconds ≤ t - w0) := by omega
    by_cases hle : limit ≤ c
    · have hcheck : rl.check t key limit = (.rejected, rl) := by
        simp [RateLimiter.check, hstate, hnr, hle]
      obtain ⟨h1, h2, h3⟩ := ih rl c hstate htail
      rw [runChecks_cons, hcheck]
      have hA : (limit - c).toNat = 0 := by omega
      refine ⟨?_, ?_, ?_⟩
      · rw [h1, hA]
        simp [List.replicate_succ]
      · rw [h2, hA]
        simp
      · exact h3
    · have hcl : ¬ (limit ≤ c) := hle
      have hcheck : rl.check t key limit =
          (.allowed, rl.setState key ⟨w0, c + 1⟩) := by
        simp [RateLimiter.check, hstate, hnr, hcl]
      have hwin' : (rl.setState key ⟨w0, c + 1⟩).window_seconds = rl.window_seconds :=
        setState_window ..
      have htail' : ∀ t' ∈ ts, t' - w0 < (rl.setState key ⟨w0, c + 1⟩).window_seconds := by
        rw [hwin']; exact htail
      obtain ⟨h1, h2, h3⟩ :=
        ih (rl.setState key ⟨w0, c + 1⟩) (c + 1) (setState_state_self ..) htail'
      have hmin : min (limit - c).toNat (t :: ts).length =
          min (limit - (c + 1)).toNat ts.length + 1 := by
        simp only [List.length_cons]
        omega
      rw [runChecks_cons, hcheck]
      refine ⟨?_, ?_, ?_⟩
      · rw [h1, hmin, List.replicate_succ]
        have hlen : (t :: ts).length - (min (limit - (c + 1)).toNat ts.length + 1) =
            ts.length - min (limit - (c + 1)).toNat ts.length := by
          simp only [List.length_cons]
          omega
        rw [hlen]
        simp
      · rw [h2]
        have : c + 1 + ((min (limit - (c + 1)).toNat ts.length : Nat) : Int) =
            c + ((min (limit - c).toNat (t :: ts).length : Nat) : Int) := by
          simp only [List.length_cons]
          omega
        rw [this]
      · rw [h3, hwin']

/-- Claim C1: starting from no window state for `key` (the first request opens the
window at `t0`), with a configured limit `L ≥ 1` and every further request arriving
within that same fixed window (`t0 ≤ t` and `t - t0 < window_seconds`), at most `L`
of the requests are Allowed; and when there are exactly `L + 1` requests, the last —
the `(L+1)`th request of the window — is Rejected. -/
theorem rate_limit_window_bound (rl : RateLimiter) (key : String) (limit : Int)
    (t0 : Int) (rest : List Int)
    (hfresh : rl.state key = none) (hlim : 1 ≤ limit)
    (hin : ∀ t ∈ rest, t0 ≤ t ∧ t - t0 < rl.window_seconds) :
    ((runChecks key limit rl (t0 :: rest)).1.count .allowed ≤ limit.toNat) ∧
      (rest.length = limit.toNat →
        (runChecks key limit rl (t0 :: rest)).1.getLast? = some .rejected) := by
  have hcheck : rl.check t0 key limit = (.allowed, rl.setState key ⟨t0, 1⟩) := by
    simp [RateLimiter.check, hfresh]
  have hin1 : ∀ t ∈ rest, t - t0 < (rl.setState key ⟨t0, 1⟩).window_seconds := by
    rw [setState_window]; exact fun t h => (hin t h).2
  obtain ⟨h1, h2, h3⟩ := runChecks_in_window key limit (rl.setState key ⟨t0, 1⟩)
    t0 1 rest (setState_state_self ..) hin1
  have hrun : (runChecks key limit rl (t0 :: rest)).1 =
      .allowed :: (runChecks key limit (rl.setState key ⟨t0, 1⟩) rest).1 := by
    rw [runChecks_cons, hcheck]
  rw [hrun, h1]
  constructor
  · simp only [List.count_cons, List.count_append, List.count_replicate]
    simp only [beq_self_eq_true, if_true, beq_iff_eq, reduceCtorEq, if_false]
    omega
  · intro hn
    have hA : min (limit - 1).toNat rest.length = (limit - 1).toNat := by omega
    rw [hA]
    have hB : rest.length - (limit - 1).toNat = 1 := by omega
    rw [hB]
    rw [show (CheckResult.allowed :: (List.replicate (limit - 1).toNat .allowed ++
        List.replicate 1 .rejected)) =
        (CheckResult.allowed :: List.replicate (limit - 1).toNat .allowed) ++
          [.rejected] by simp]
    exact List.getLast?_concat _

/-- Witness for C1: window 60, limit 2, requests at times 0, 1, 2 (all inside the
window): at most 2 are Allowed and the 3rd request is Rejected. -/
theorem rate_limit_window_bound_witness :
    ((runChecks "k" 2 freshLimiter [0, 1, 2]).1.count .allowed ≤ (2 : Int).toNat) ∧
      ([(1 : Int), 2].length = (2 : Int).toNat →
        (runChecks "k" 2 freshLimiter [0, 1, 2]).1.getLast? = some .rejected) :=
  rate_limit_window_bound freshLimiter "k" 2 0 [1, 2] rfl (by decide)
    (by intro t ht
        simp only [freshLimiter]
        fin_cases ht <;> constructor <;> decide)

/-- A row of the `api_keys` table from `app/database.py` (schema in
`Database.initialise`): all columns are NOT NULL; `total_requests` defaults to 0;
the `CURRENT_TIMESTAMP` text columns are modelled as abstract `Int` instants. -/
structure ApiKeyRecord where
  key : String
  owner : String
  rate_limit : Int
  total_requests : Int
  created_at : Int
  updated_at : Int
  deriving DecidableEq, Repr

/-- The `api_keys` table, keyed by its `key` primary key. -/
abbrev Store := String → Option ApiKeyRecord

/-- One `INSERT ... ON CONFLICT(key) DO UPDATE SET owner=excluded.owner` statement
from `Database.initialise`: absent key → fresh row with `total_requests = 0` and
timestamps `CURRENT_TIMESTAMP` (= `now`); present key → only `owner` is updated. -/
def upsertDefaultKey (rate_limit : Int) (now : Int) (db : Store)
    (kv : String × String) : Store :=
  fun k =>
    if k = kv.1 then
      match db kv.1 with
      | none => some ⟨kv.1, kv.2, rate_limit, 0, now, now⟩
      | some r => some { r with owner := kv.2 }
    else db k

/-- Embeds `Database.initialise(default_keys, rate_limit)` from `app/database.py`:
creates the schema (a no-op on the modelled table) and runs the upsert statement
for each default `(key, owner)` pair in order. -/
def Database.initialise (db : Store) (default_keys : List (String × String))
    (rate_limit : Int) (now : Int) : Store :=
  default_keys.foldl (upsertDefaultKey rate_limit now) db

/-- Embeds `Database.get_api_key(key)` from `app/database.py`: a read-only
`SELECT ... WHERE key = ?`. -/
def Database.get_api_key (db : Store) (key : String) : Option ApiKeyRecord :=
  db key

/-- Embeds `Database.increment_usage(key)` from `app/database.py`:

    UPDATE api_keys
       SET total_requests = total_requests + 1,
           updated_at = CURRENT_TIMESTAMP
     WHERE key = ?

An `UPDATE` whose `WHERE` matches no row changes nothing and raises no error, which
the `Option.map` on the absent row reproduces; the definition is total, so the
operation never fails for its caller. -/
def Database.increment_usage (db : Store) (key : String) (now : Int) : Store :=
  fun k =>
    if k = key then
      (db key).map fun r =>
        { r with total_requests := r.total_requests + 1, updated_at := now }
    else db k

/-- Embeds `Database.get_usage(key)` from `app/database.py`. -/
def Database.get_usage (db : Store) (key : String) : Option Int :=
  (db key).map fun r => r.total_requests

/-- Each upsert step preserves every field except `owner` of every existing row. -/
theorem upsertDefaultKey_preserves (rate_limit now : Int) (db : Store)
    (kv : String × String) (k : String) (r : ApiKeyRecord)
    (h : db k = some r) :
    ∃ r' : ApiKeyRecord, upsertDefaultKey rate_limit now db kv k = some r' ∧
      r'.key = r.key ∧ r'.rate_limit = r.rate_limit ∧
      r'.total_requests = r.total_requests ∧
      r'.created_at = r.created_at ∧ r'.updated_at = r.updated_at := by
  unfold upsertDefaultKey
  by_cases hk : k = kv.1
  · subst hk
    rw [h]
    exact ⟨{ r with owner := kv.2 }, by simp⟩
  · exact ⟨r, by simp [hk, h]⟩

theorem initialise_preserves (db : Store) (default_keys : List (String × String))
    (rate_limit now : Int) (k : String) (r : ApiKeyRecord)
    (h : db k = some r) :
    ∃ r' : ApiKeyRecord, Database.initialise db default_keys rate_limit now k = some r' ∧
      r'.key = r.key ∧ r'.rate_limit = r.rate_limit ∧
      r'.total_requests = r.total_requests ∧
      r'.created_at = r.created_at ∧ r'.updated_at = r.updated_at := by
  induction default_keys generalizing db r with
  | nil => exact ⟨r, h, rfl, rfl, rfl, rfl, rfl⟩
  | cons kv kvs ih =>
    obtain ⟨r', h', hkey, hrl, htr, hca, hua⟩ :=
      upsertDefaultKey_preserves rate_limit now db kv k r h
    obtain ⟨r'', h'', hkey', hrl', htr', hca', hua'⟩ :=
      ih (upsertDefaultKey rate_limit now db kv) r' h'
    exact ⟨r'', h'', hkey'.trans hkey, hrl'.trans hrl, htr'.trans htr,
      hca'.trans hca, hua'.trans hua⟩

/-- Claim C2: when `initialise` runs over a store in which key `k` already exists,
the stored record keeps its `key`, `rate_limit`, `total_requests`, `created_at` and
`updated_at` — only `owner` may change; and a second run of `initialise` with the
same defaults again preserves `total_requests`, so it is never reset to 0. -/
theorem initialise_upsert_preserves_existing (db : Store)
    (default_keys : List (String × String)) (rate_limit now now2 : Int)
    (k : String) (r : ApiKeyRecord) (h : db k = some r) :
    (∃ r' : ApiKeyRecord,
        Database.initialise db default_keys rate_limit now k = some r' ∧
        r'.key = r.key ∧ r'.rate_limit = r.rate_limit ∧
        r'.total_requests = r.total_requests ∧
        r'.created_at = r.created_at ∧ r'.updated_at = r.updated_at) ∧
      (∃ r2 : ApiKeyRecord,
        Database.initialise (Database.initialise db default_keys rate_limit now)
            default_keys rate_limit now2 k = some r2 ∧
        r2.total_requests = r.total_requests) := by
  obtain ⟨r', h', hkey, hrl, htr, hca, hua⟩ :=
    initialise_preserves db default_keys rate_limit now k r h
  refine ⟨⟨r', h', hkey, hrl, htr, hca, hua⟩, ?_⟩
  obtain ⟨r2, h2, _, _, htr2, _, _⟩ :=
    initialise_preserves _ default_keys rate_limit now2 k r' h'
  exact ⟨r2, h2, htr2.trans htr⟩

/-- A store holding the single seeded demo key with 7 recorded requests. -/
def demoStore : Store :=
  fun k => if k = "demo-key-123"
    then some ⟨"demo-key-123", "Demo account", 60, 7, 0, 3⟩
    else none

/-- Witness for C2: re-initialising over `demoStore` (which already has the demo key
with `total_requests = 7`) keeps `rate_limit` and `total_requests`, twice over. -/
theorem initialise_upsert_preserves_existing_witness :
    (∃ r' : ApiKeyRecord,
        Database.initialise demoStore [("demo-key-123", "Demo account")] 60 10
            "demo-key-123" = some r' ∧
        r'.key = "demo-key-123" ∧ r'.rate_limit = 60 ∧ r'.total_requests = 7 ∧
        r'.created_at = 0 ∧ r'.updated_at = 3) ∧
      (∃ r2 : ApiKeyRecord,
        Database.initialise
            (Database.initialise demoStore [("demo-key-123", "Demo account")] 60 10)
            [("demo-key-123", "Demo account")] 60 20 "demo-key-123" = some r2 ∧
        r2.total_requests = 7) :=
  initialise_upsert_preserves_existing demoStore [("demo-key-123", "Demo account")]
    60 10 20 "demo-key-123" ⟨"demo-key-123", "Demo account", 60, 7, 0, 3⟩
    (by simp [demoStore])

/-- Claim C4: `increment_usage` on an existing key adds exactly 1 to its
`total_requests` and refreshes `updated_at`, leaving every other field and every
other key untouched; on an absent key it changes nothing (the `UPDATE` matches no
row) — and being a total function it never fails for its caller. -/
theorem increment_usage_spec (db : Store) (key : String) (now : Int) :
    (∀ r : ApiKeyRecord, db key = some r →
        Database.increment_usage db key now key =
          some { r with total_requests := r.total_requests + 1, updated_at := now }) ∧
      (db key = none → Database.increment_usage db key now = db) ∧
      (∀ k : String, k ≠ key → Database.increment_usage db key now k = db k) := by
  refine ⟨?_, ?_, ?_⟩
  · intro r h
    simp [Database.increment_usage, h]
  · intro h
    funext k
    unfold Database.increment_usage
    by_cases hk : k = key
    · subst hk
      simp [h]
    · simp [hk]
  · intro k hk
    simp [Database.increment_usage, hk]

/-- Witness for C4: incrementing the demo key bumps `total_requests` from 7 to 8 and
stamps `updated_at`; incrementing an unknown key leaves the store unchanged at the
demo key; an unrelated key is untouched by the increment. -/
theorem increment_usage_spec_witness :
    Database.increment_usage demoStore "demo-key-123" 11 "demo-key-123" =
        some ⟨"demo-key-123", "Demo account", 60, 8, 0, 11⟩ ∧
      Database.increment_usage demoStore "nope" 11 = demoStore ∧
      Database.increment_usage demoStore "demo-key-123" 11 "other" = demoStore "other" := by
  refine ⟨?_, ?_, ?_⟩
  · exact (increment_usage_spec demoStore "demo-key-123" 11).1
      ⟨"demo-key-123", "Demo account", 60, 7, 0, 3⟩ (by simp [demoStore])
  · exact (increment_usage_spec demoStore "nope" 11).2.1 (by simp [demoStore])
  · exact (increment_usage_spec demoStore "demo-key-123" 11).2.2 "other" (by simp)

/-- Outcome of the `get_current_api_key` dependency from `app/security.py`: either an
`HTTPException(status_code, detail)` (FastAPI serialises `detail` into the response
body) or the authenticated key's record returned to the route handler. -/
inductive GateResult where
  | httpError (status_code : Nat) (detail : String)
  | success (record : ApiKeyRecord)
  deriving DecidableEq, Repr

/-- Python truthiness test `if not api_key:` on the header value delivered by
`APIKeyHeader(..., auto_error=False)`: the header may be absent (`None`) or empty. -/
def keyIsFalsy : Option String → Bool
  | none => true
  | some s => s = ""

/-- Embeds the `dependency` closure produced by `get_current_api_key(increment_usage=...)`
in `app/security.py`, with the ambient `database` and `rate_limiter` objects and the
clock passed explicitly:

    if not api_key: raise HTTPException(401, "Missing API key")
    record = database.get_api_key(api_key)
    if not record: raise HTTPException(401, "Invalid API key")
    limit = int(record["rate_limit"]) if record.get("rate_limit") is not None else ...
    try: rate_limiter.check(api_key, limit)
    except RateLimitExceededError: raise HTTPException(429, "Rate limit exceeded")
    if increment_usage: database.increment_usage(api_key)
    return record

The `rate_limit` column is NOT NULL in the schema created by `Database.initialise`,
so the `None` fallback to `settings.api_rate_limit_per_minute` is dead code and the
effective limit is always the record's own `rate_limit`. -/
def get_current_api_key (increment_usage : Bool) (db : Store) (rl : RateLimiter)
    (now : Int) (api_key : Option String) : GateResult × Store × RateLimiter :=
  if keyIsFalsy api_key then
    (.httpError 401 "Missing API key", db, rl)
  else
    match Database.get_api_key db (api_key.getD "") with
    | none => (.httpError 401 "Invalid API key", db, rl)
    | some record =>
      match rl.check now (api_key.getD "") record.rate_limit with
      | (.rejected, rl') => (.httpError 429 "Rate limit exceeded", db, rl')
      | (.allowed, rl') =>
        (.success record,
          if increment_usage then Database.increment_usage db (api_key.getD "") now
          else db,
          rl')

/-- Claim C3: a request that the gate answers with any HTTP error (401 missing key,
401 unknown key, or 429 rate-limited) leaves the key store untouched, and a request
that passes the rate-limit check with usage tracking enabled increments the key's
`total_requests` exactly once (the store becomes one `increment_usage` application,
which adds exactly 1 at that key). -/
theorem gate_usage_accounting (inc : Bool) (db : Store) (rl : RateLimiter)
    (now : Int) (api_key : Option String) :
    (∀ (st : Nat) (dt : String),
        (get_current_api_key inc db rl now api_key).1 = .httpError st dt →
        (get_current_api_key inc db rl now api_key).2.1 = db) ∧
      (∀ rec : ApiKeyRecord,
        (get_current_api_key inc db rl now api_key).1 = .success rec →
        inc = true →
        ∃ (k : String) (r : ApiKeyRecord), api_key = some k ∧ db k = some r ∧
          (get_current_api_key inc db rl now api_key).2.1 =
            Database.increment_usage db k now ∧
          (get_current_api_key inc db rl now api_key).2.1 k =
            some { r with total_requests := r.total_requests + 1,
                          updated_at := now }) := by
  cases api_key with
  | none => simp [get_current_api_key, keyIsFalsy]
  | some s =>
    by_cases hs : s = ""
    · subst hs
      simp [get_current_api_key, keyIsFalsy]
    · have hf : keyIsFalsy (some s) = false := by simp [keyIsFalsy, hs]
      match hrec : Database.get_api_key db s with
      | none =>
        simp [get_current_api_key, hf, hrec]
      | some record =>
        match hchk : rl.check now s record.rate_limit with
        | (.rejected, rl') =>
          simp [get_current_api_key, hf, hrec, hchk]
        | (.allowed, rl') =>
          constructor
          · intro st dt habs
            simp [get_current_api_key, hf, hrec, hchk] at habs
          · intro rec hsucc hinc
            subst hinc
            have hdbk : db s = some record := hrec
            refine ⟨s, record, rfl, hdbk, ?_, ?_⟩
            · simp [get_current_api_key, hf, hrec, hchk]
            · have hpoint := (increment_usage_spec db s now).1 record hdbk
              simpa [get_current_api_key, hf, hrec, hchk] using hpoint

/-- Witness for C3: with tracking enabled, an authenticated, admitted request for the
demo key turns the store into a single usage increment, bumping `total_requests`. -/
theorem gate_usage_accounting_witness :
    ∃ (k : String) (r : ApiKeyRecord), some "demo-key-123" = some k ∧
      demoStore k = some r ∧
      (get_current_api_key true demoStore freshLimiter 0 (some "demo-key-123")).2.1 =
        Database.increment_usage demoStore k 0 ∧
      (get_current_api_key true demoStore freshLimiter 0 (some "demo-key-123")).2.1 k =
        some { r with total_requests := r.total_requests + 1, updated_at := 0 } :=
  (gate_usage_accounting true demoStore freshLimiter 0 (some "demo-key-123")).2
    ⟨"demo-key-123", "Demo account", 60, 7, 0, 3⟩ (by decide) rfl

/-- Counterexample to claim C5's "not distinguishable in the response": a missing key
and an unknown key both produce status 401 via the same error constructor, but with
different `detail` strings ("Missing API key" vs "Invalid API key"), and FastAPI
serialises `detail` into the response body — so the two responses are distinguishable. -/
theorem missing_vs_unknown_key_responses_differ :
    (get_current_api_key true demoStore freshLimiter 0 none).1 =
        .httpError 401 "Missing API key" ∧
      (get_current_api_key true demoStore freshLimiter 0 (some "unknown-key")).1 =
        .httpError 401 "Invalid API key" ∧
      (get_current_api_key true demoStore freshLimiter 0 none).1 ≠
        (get_current_api_key true demoStore freshLimiter 0 (some "unknown-key")).1 := by
  refine ⟨rfl, by decide, by decide⟩

/-- Claim C5 (amended): a request with a missing/empty API key and a request with an
unknown API key both fail through the same error class (`HTTPException`,
`GateResult.httpError`) with the same HTTP status 401 — though their `detail`
messages differ, so the response bodies do distinguish the two cases. -/
theorem missing_and_unknown_key_both_401 (inc : Bool) (db : Store) (rl : RateLimiter)
    (now : Int) (api_key : Option String)
    (h : keyIsFalsy api_key = true ∨ Database.get_api_key db (api_key.getD "") = none) :
    ∃ d : String, (get_current_api_key inc db rl now api_key).1 = .httpError 401 d := by
  by_cases hf : keyIsFalsy api_key
  · exact ⟨"Missing API key", by simp [get_current_api_key, hf]⟩
  · rcases h with h | h
    · exact absurd h (by simpa using hf)
    · exact ⟨"Invalid API key", by simp [get_current_api_key, hf, h]⟩

/-- Witness for C5 (amended): the missing-key case and the unknown-key case each hit
a 401 `httpError` on the demo store. -/
theorem missing_and_unknown_key_both_401_witness :
    (∃ d : String,
        (get_current_api_key true demoStore freshLimiter 0 none).1 =
          .httpError 401 d) ∧
      (∃ d : String,
        (get_current_api_key true demoStore freshLimiter 0 (some "unknown-key")).1 =
          .httpError 401 d) :=
  ⟨missing_and_unknown_key_both_401 true demoStore freshLimiter 0 none
      (Or.inl (by decide)),
    missing_and_unknown_key_both_401 true demoStore freshLimiter 0 (some "unknown-key")
      (Or.inr (by decide))⟩

/-- Characters removed by Python's default `str.strip()` (str.isspace), restricted to
the ASCII whitespace characters space, tab, newline, carriage return, vertical tab
and form feed; the further Unicode whitespace code points are not modelled. -/
def pythonIsSpace (c : Char) : Bool :=
  c == ' ' || c == '\t' || c == '\n' || c == '\r' || c == '\x0b' || c == '\x0c'

/-- Python `national_id.strip()` on the character list: drop whitespace from the
front, then from the back (implemented by reversing). -/
def pythonStripList (l : List Char) : List Char :=
  ((l.dropWhile pythonIsSpace).reverse.dropWhile pythonIsSpace).reverse

/-- Numeric value of an ASCII digit character, as `int()` reads each digit. -/
def digitVal (c : Char) : Nat :=
  c.toNat - '0'.toNat

/-- A `datetime.date` value. -/
structure PyDate where
  year : Nat
  month : Nat
  day : Nat
  deriving DecidableEq, Repr

/-- Gregorian leap-year rule used by `datetime.date`. -/
def isLeapYear (y : Nat) : Bool :=
  y % 4 == 0 && (y % 100 != 0 || y % 400 == 0)

def daysInMonth (y m : Nat) : Nat :=
  if m = 2 then (if isLeapYear y then 29 else 28)
  else if m = 4 ∨ m = 6 ∨ m = 9 ∨ m = 11 then 30
  else 31

/-- Python `datetime.date(year, month, day)`: yields a date when
`MINYEAR (1) ≤ year ≤ MAXYEAR (9999)`, `1 ≤ month ≤ 12` and `1 ≤ day ≤` the number
of days in that month, and raises `ValueError` (here `none`) otherwise. -/
def mkDate (y m d : Nat) : Option PyDate :=
  if 1 ≤ y ∧ y ≤ 9999 ∧ 1 ≤ m ∧ m ≤ 12 ∧ 1 ≤ d ∧ d ≤ daysInMonth y m then
    some ⟨y, m, d⟩
  else none

/-- Embeds the `NationalIDDetails` dataclass from `app/national_id.py`. -/
structure NationalIDDetails where
  birth_date : PyDate
  gender : String
  governorate_code : String
  governorate_name : String
  deriving DecidableEq, Repr

/-- The `_GOVERNORATE_CODES` table from `app/national_id.py`. -/
def governorateCodes : List (String × String) :=
  [("01", "Cairo"), ("02", "Alexandria"), ("03", "Port Said"), ("04", "Suez"),
   ("11", "Damietta"), ("12", "Dakahlia"), ("13", "Sharkia"), ("14", "Qalyubia"),
   ("15", "Kafr El Sheikh"), ("16", "Gharbia"), ("17", "Monufia"), ("18", "Beheira"),
   ("19", "Ismailia"), ("21", "Giza"), ("22", "Beni Suef"), ("23", "Fayoum"),
   ("24", "Minya"), ("25", "Assiut"), ("26", "Sohag"), ("27", "Qena"),
   ("28", "Aswan"), ("29", "Luxor"), ("31", "Red Sea"), ("32", "New Valley"),
   ("33", "Matrouh"), ("34", "North Sinai"), ("35", "South Sinai"),
   ("88", "Foreign Residents")]

/-- The body of `parse_national_id` from `app/national_id.py` after the
`national_id.strip()` call, on the stripped character list:
- not 14 characters, or not all digits (ASCII digits modelled; see `Char.isDigit`) →
  "National ID must be a 14-digit numeric string";
- century digit (index 0) outside `{"2": 1900, "3": 2000}` → "Unsupported century digit …";
- `date(year, month, day)` with `year = base + int(s[1:3])`, `month = int(s[3:5])`,
  `day = int(s[5:7])` invalid → "Invalid birth date …";
- governorate code `s[7:9]` not in `_GOVERNORATE_CODES` → "Unknown governorate code …";
- otherwise gender is "male" iff `int(s[12])` is odd, and the details are returned. -/
def parseStripped : List Char → Except String NationalIDDetails
  | stripped@([c0, c1, c2, c3, c4, c5, c6, c7, c8, _, _, _, c12, _]) =>
    if stripped.all Char.isDigit then
      if c0 = '2' ∨ c0 = '3' then
        let base : Nat := if c0 = '2' then 1900 else 2000
        let year := base + (10 * digitVal c1 + digitVal c2)
        let month := 10 * digitVal c3 + digitVal c4
        let day := 10 * digitVal c5 + digitVal c6
        match mkDate year month day with
        | none => .error "Invalid birth date in National ID"
        | some birth_date =>
          let gov_code := String.mk [c7, c8]
          match governorateCodes.lookup gov_code with
          | none => .error "Unknown governorate code in National ID"
          | some gov_name =>
            let gender := if digitVal c12 % 2 ≠ 0 then "male" else "female"
            .ok ⟨birth_date, gender, gov_code, gov_name⟩
      else .error "Unsupported century digit in National ID"
    else .error "National ID must be a 14-digit numeric string"
  | _ => .error "National ID must be a 14-digit numeric string"

/-- Embeds `parse_national_id(national_id)` from `app/national_id.py`: the input is
always a string here, so the `isinstance` guard is vacuous; the string is stripped
and then validated and decoded by `parseStripped`. -/
def parse_national_id (national_id : String) : Except String NationalIDDetails :=
  parseStripped (pythonStripList national_id.data)

/-- Claim C8: the national ID "30101012100013" decodes to birth date 2001-01-01,
governorate code "21" (Giza) and gender "male". -/
theorem parse_demo_national_id :
    parse_national_id "30101012100013" =
      .ok ⟨⟨2001, 1, 1⟩, "male", "21", "Giza"⟩ := by
  rfl

theorem dropWhile_append_of_all {p : Char → Bool} (ws l : List Char)
    (h : ∀ c ∈ ws, p c = true) :
    List.dropWhile p (ws ++ l) = List.dropWhile p l := by
  induction ws with
  | nil => rfl
  | cons c cs ih =>
    have hc : p c = true := h c (List.mem_cons_self ..)
    rw [List.cons_append, List.dropWhile_cons, if_pos hc]
    exact ih fun x hx => h x (List.mem_cons_of_mem _ hx)

theorem dropWhile_of_all {p : Char → Bool} (ws : List Char)
    (h : ∀ c ∈ ws, p c = true) :
    List.dropWhile p ws = [] := by
  have := dropWhile_append_of_all ws [] h
  simpa using this

theorem pythonStripList_prepend_space (ws l : List Char)
    (h : ∀ c ∈ ws, pythonIsSpace c = true) :
    pythonStripList (ws ++ l) = pythonStripList l := by
  unfold pythonStripList
  rw [dropWhile_append_of_all ws l h]

theorem pythonStripList_append_space (l ws : List Char)
    (h : ∀ c ∈ ws, pythonIsSpace c = true) :
    pythonStripList (l ++ ws) = pythonStripList l := by
  induction l with
  | nil =>
    simp only [List.nil_append]
    simp [pythonStripList, dropWhile_of_all ws h]
  | cons c cs ih =>
    by_cases hc : pythonIsSpace c
    · have e1 : pythonStripList ((c :: cs) ++ ws) = pythonStripList (cs ++ ws) := by
        simp [pythonStripList, List.dropWhile_cons, hc]
      have e2 : pythonStripList (c :: cs) = pythonStripList cs := by
        simp [pythonStripList, List.dropWhile_cons, hc]
      rw [e1, e2, ih]
    · have hcb : pythonIsSpace c = false := by simpa using hc
      have e1 : List.dropWhile pythonIsSpace ((c :: cs) ++ ws) = (c :: cs) ++ ws := by
        rw [List.cons_append, List.dropWhile_cons, if_neg (by simp [hcb])]
      have e2 : List.dropWhile pythonIsSpace (c :: cs) = c :: cs := by
        rw [List.dropWhile_cons, if_neg (by simp [hcb])]
      unfold pythonStripList
      rw [e1, e2, List.reverse_append,
        dropWhile_append_of_all ws.reverse (c :: cs).reverse
          fun x hx => h x (List.mem_reverse.mp hx)]

/-- Claim C9: `parse_national_id` strips leading and trailing whitespace before
validating, so surrounding any input with whitespace padding does not change the
result (success value or error alike). -/
theorem parse_national_id_strip_invariant (pre post : List Char) (s : String)
    (hpre : ∀ c ∈ pre, pythonIsSpace c = true)
    (hpost : ∀ c ∈ post, pythonIsSpace c = true) :
    parse_national_id ⟨pre ++ s.data ++ post⟩ = parse_national_id s := by
  show parseStripped (pythonStripList (pre ++ s.data ++ post)) =
    parseStripped (pythonStripList s.data)
  rw [List.append_assoc, pythonStripList_prepend_space pre (s.data ++ post) hpre,
    pythonStripList_append_space s.data post hpost]

/-- Witness for C9: "30101012100013" surrounded by spaces parses exactly as the bare
ID does; in particular the padded 14-digit ID is accepted. -/
theorem parse_national_id_strip_invariant_witness :
    parse_national_id ⟨[' ', ' '] ++ "30101012100013".data ++ [' ']⟩ =
        parse_national_id "30101012100013" ∧
      (parse_national_id ⟨[' ', ' '] ++ "30101012100013".data ++ [' ']⟩).isOk = true :=
  ⟨parse_national_id_strip_invariant [' ', ' '] [' '] "30101012100013"
      (by decide) (by decide),
    by decide⟩

end EgyptianNationalIDService
